import Mathlib

/-!
Verification of the `SchemaGenerator` module (schemaGenerator.js): a shallow
embedding of its data model and operations, followed by theorems about the
frozen specification claims.  Strings are modelled through their character
lists (`String.data`); JavaScript platform functions that the module calls
(`JSON.parse`, `JSON.stringify`, `new Date().toISOString()`) are passed in as
explicit parameters, since they are not part of the repository's code.
-/

/-- Character is in the class `[a-z0-9_]` (codes: a–z = 97–122, 0–9 = 48–57,
underscore = 95), the class kept by `sanitizeFieldName`. -/
def isAllowedChar (c : Char) : Bool :=
  (97 ≤ c.toNat && c.toNat ≤ 122) || (48 ≤ c.toNat && c.toNat ≤ 57) || c.toNat == 95

/-- Models JavaScript `String.prototype.toLowerCase` character-wise: an ASCII
upper-case letter (codes 65–90) is shifted to lower case, every other
character is kept.  (Non-ASCII letters that JS would also lower-case are
replaced by `_` in the very next sanitizer step either way, so the pipeline's
output is unaffected by this ASCII-only model.) -/
def jsLowerChar (c : Char) : Char :=
  if 65 ≤ c.toNat && c.toNat ≤ 90 then Char.ofNat (c.toNat + 32) else c

/-- Models the replacement `/[^a-z0-9_]/g → '_'` of `sanitizeFieldName`. -/
def replaceBad (l : List Char) : List Char :=
  l.map fun c => if isAllowedChar c then c else '_'

/-- Models the replacement `/^_+|_+$/g → ''` of `sanitizeFieldName`: the
leading run and the trailing run of underscores are removed. -/
def stripUnderscores (l : List Char) : List Char :=
  ((l.dropWhile (fun c => c == '_')).reverse.dropWhile (fun c => c == '_')).reverse

/-- Models the replacement `/_+/g → '_'` of `sanitizeFieldName`: every maximal
run of underscores collapses to a single underscore (realised by keeping an
underscore only when the character kept after it is not an underscore; since
all characters of a run are `'_'`, this yields the same output). -/
def collapseUnderscores : List Char → List Char
  | [] => []
  | a :: rest =>
      let r := collapseUnderscores rest
      if a == '_' && r.head? == some '_' then r else a :: r

/-- Character-list core of `sanitizeFieldName`: lower-case, replace characters
outside `[a-z0-9_]` by `_`, strip leading/trailing underscores, collapse
consecutive underscores. -/
def sanitizeCore (l : List Char) : List Char :=
  collapseUnderscores (stripUnderscores (replaceBad (l.map jsLowerChar)))

/-- Embeds `sanitizeFieldName(name)` of schemaGenerator.js. -/
def sanitizeFieldName (s : String) : String :=
  ⟨sanitizeCore s.data⟩

/-- No two consecutive underscores occur in the list. -/
def noDouble : List Char → Bool
  | a :: b :: rest => !(a == '_' && b == '_') && noDouble (b :: rest)
  | _ => true

/-- Models the whitespace class trimmed by JavaScript `String.prototype.trim`
(space, tab, line feed, carriage return, vertical tab, form feed; the exotic
Unicode space characters JS also trims play no role in any claim). -/
def jsIsWhitespace (c : Char) : Bool :=
  c == ' ' || c == '\t' || c == '\n' || c == '\r' || c.toNat == 11 || c.toNat == 12

/-- Embeds JavaScript `value.trim()`. -/
def jsTrim (s : String) : String :=
  ⟨((s.data.dropWhile jsIsWhitespace).reverse.dropWhile jsIsWhitespace).reverse⟩

/-- List is nonempty and consists of decimal digits. -/
def allDigits1 (l : List Char) : Bool :=
  !l.isEmpty && l.all Char.isDigit

/-- Exponent tail after `e`/`E` in a JS decimal numeric literal: an optional
sign followed by at least one digit. -/
def matchExpTail : List Char → Bool
  | '+' :: r => allDigits1 r
  | '-' :: r => allDigits1 r
  | r => allDigits1 r

/-- Optional exponent part closing a JS decimal numeric literal. -/
def matchExpOpt : List Char → Bool
  | [] => true
  | 'e' :: r => matchExpTail r
  | 'E' :: r => matchExpTail r
  | _ => false

/-- Unsigned decimal part of the `StrNumericLiteral` grammar used by the JS
`Number` conversion: `Infinity`, `digits [. digits] [exponent]`, or
`. digits [exponent]`. -/
def matchDecimalUnsigned (l : List Char) : Bool :=
  if l == "Infinity".data then true
  else
    let ds := l.takeWhile Char.isDigit
    let rest := l.drop ds.length
    if ds.isEmpty then
      match rest with
      | '.' :: r =>
          let ds2 := r.takeWhile Char.isDigit
          !ds2.isEmpty && matchExpOpt (r.drop ds2.length)
      | _ => false
    else
      match rest with
      | [] => true
      | '.' :: r =>
          let ds2 := r.takeWhile Char.isDigit
          matchExpOpt (r.drop ds2.length)
      | r => matchExpOpt r

/-- Non-decimal (hex / octal / binary) integer literals accepted by the JS
`Number` conversion; a sign is not allowed before these. -/
def matchRadix : List Char → Bool
  | '0' :: x :: r =>
      if x == 'x' || x == 'X' then !r.isEmpty && r.all (fun c => c.isDigit ||
        (97 ≤ c.toNat && c.toNat ≤ 102) || (65 ≤ c.toNat && c.toNat ≤ 70))
      else if x == 'o' || x == 'O' then !r.isEmpty && r.all (fun c => 48 ≤ c.toNat && c.toNat ≤ 55)
      else if x == 'b' || x == 'B' then !r.isEmpty && r.all (fun c => c == '0' || c == '1')
      else false
  | _ => false

/-- Models `!isNaN(s)` for an already-trimmed string `s`: the JS `Number`
conversion yields a non-NaN value exactly for the empty string (which coerces
to `0`) and for a `StrNumericLiteral`. -/
def jsNumericStringValid (s : String) : Bool :=
  match s.data with
  | [] => true
  | '+' :: r => matchDecimalUnsigned r
  | '-' :: r => matchDecimalUnsigned r
  | l => matchDecimalUnsigned l || matchRadix l

/-- Models `!isNaN(parseFloat(s))` for an already-trimmed string `s`:
`parseFloat` returns NaN exactly when, after an optional sign, the string
neither starts with a digit, nor with a dot followed by a digit, nor with
`Infinity`. -/
def parseFloatDefined (s : String) : Bool :=
  let l := match s.data with
    | '+' :: r => r
    | '-' :: r => r
    | r => r
  match l with
  | [] => false
  | '.' :: c :: _ => c.isDigit
  | '.' :: [] => false
  | c :: _ => c.isDigit || "Infinity".data.isPrefixOf l

/-- Embeds `isDate(value)` of schemaGenerator.js: the regular expression
`^\d{4}-\d{2}-\d{2}$`. -/
def isDateChars : List Char → Bool
  | [a, b, c, d, '-', e, f, '-', g, h] =>
      a.isDigit && b.isDigit && c.isDigit && d.isDigit &&
      e.isDigit && f.isDigit && g.isDigit && h.isDigit
  | _ => false

/-- Embeds `isDateTime(value)` of schemaGenerator.js: the regular expression
`^\d{4}-\d{2}-\d{2}[T ]\d{2}:\d{2}:\d{2}` (a prefix match, trailing content
is ignored). -/
def isDateTimeChars : List Char → Bool
  | a :: b :: c :: d :: '-' :: e :: f :: '-' :: g :: h :: t :: h1 :: h2 :: ':' :: m1 :: m2 :: ':' :: s1 :: s2 :: _ =>
      a.isDigit && b.isDigit && c.isDigit && d.isDigit &&
      e.isDigit && f.isDigit && g.isDigit && h.isDigit &&
      (t == 'T' || t == ' ') &&
      h1.isDigit && h2.isDigit && m1.isDigit && m2.isDigit && s1.isDigit && s2.isDigit
  | _ => false

lemma jsLowerChar_allowed {c : Char} (h : isAllowedChar c = true) : jsLowerChar c = c := by
  simp only [isAllowedChar, Bool.or_eq_true, Bool.and_eq_true, decide_eq_true_eq,
    beq_iff_eq] at h
  unfold jsLowerChar
  rw [if_neg]
  simp only [Bool.and_eq_true, decide_eq_true_eq, not_and]
  omega

lemma replaceBad_all (l : List Char) : (replaceBad l).all isAllowedChar = true := by
  simp only [replaceBad, List.all_map]
  apply List.all_eq_true.2
  intro c _
  by_cases h : isAllowedChar c
  · simp only [Function.comp_apply, if_pos h]; exact h
  · simp only [Function.comp_apply, if_neg h]; decide

lemma replaceBad_of_all {l : List Char} (h : l.all isAllowedChar = true) :
    replaceBad l = l := by
  induction l with
  | nil => rfl
  | cons a t ih =>
      simp only [List.all_cons, Bool.and_eq_true] at h
      simp only [replaceBad, List.map_cons, if_pos h.1]
      exact congrArg (a :: ·) (ih h.2)

lemma map_jsLowerChar_of_all {l : List Char} (h : l.all isAllowedChar = true) :
    l.map jsLowerChar = l := by
  induction l with
  | nil => rfl
  | cons a t ih =>
      simp only [List.all_cons, Bool.and_eq_true] at h
      rw [List.map_cons, jsLowerChar_allowed h.1, ih h.2]

lemma head?_dropWhile_ne (p : Char → Bool) :
    ∀ (l : List Char) {c : Char}, (l.dropWhile p).head? = some c → p c = false := by
  intro l
  induction l with
  | nil => intro c h; simp [List.dropWhile] at h
  | cons a t ih =>
      intro c h
      by_cases hp : p a
      · rw [List.dropWhile_cons, if_pos hp] at h
        exact ih h
      · rw [List.dropWhile_cons, if_neg hp] at h
        simp only [List.head?_cons, Option.some.injEq] at h
        subst h
        simpa using hp

lemma head?_of_append_eq {α : Type} {l₁ t l₂ : List α} (h : l₁ ++ t = l₂) {c : α}
    (hc : l₁.head? = some c) : l₂.head? = some c := by
  subst h
  cases l₁ with
  | nil => simp at hc
  | cons a t' => simpa using hc

lemma dropWhile_eq_self_of_head {p : Char → Bool} {l : List Char}
    (h : ∀ c, l.head? = some c → p c = false) : l.dropWhile p = l := by
  cases l with
  | nil => rfl
  | cons a t => rw [List.dropWhile_cons, if_neg (by simp [h a rfl])]

lemma stripUnderscores_head? {l : List Char} {c : Char}
    (h : (stripUnderscores l).head? = some c) : c ≠ '_' := by
  have hsuf : ((l.dropWhile (fun c => c == '_')).reverse.dropWhile (fun c => c == '_'))
      <:+ (l.dropWhile (fun c => c == '_')).reverse := List.dropWhile_suffix _
  have hpre : stripUnderscores l <+: l.dropWhile (fun c => c == '_') := by
    unfold stripUnderscores
    exact List.reverse_suffix.mp (by simpa using hsuf)
  obtain ⟨t, ht⟩ := hpre
  have := head?_dropWhile_ne (fun c => c == '_') l (head?_of_append_eq ht h)
  simpa using this

lemma getLast?_stripUnderscores {l : List Char} {c : Char}
    (h : (stripUnderscores l).getLast? = some c) : c ≠ '_' := by
  unfold stripUnderscores at h
  rw [List.getLast?_reverse] at h
  have := head?_dropWhile_ne (fun c => c == '_') (l.dropWhile (fun c => c == '_')).reverse h
  simpa using this

lemma stripUnderscores_eq_self {l : List Char}
    (h1 : l.head? ≠ some '_') (h2 : l.getLast? ≠ some '_') :
    stripUnderscores l = l := by
  unfold stripUnderscores
  have e1 : l.dropWhile (fun c => c == '_') = l :=
    dropWhile_eq_self_of_head (fun c hc => by
      simp only [beq_eq_false_iff_ne, ne_eq]
      intro e; subst e; exact h1 hc)
  rw [e1]
  have e2 : l.reverse.dropWhile (fun c => c == '_') = l.reverse :=
    dropWhile_eq_self_of_head (fun c hc => by
      rw [List.head?_reverse] at hc
      simp only [beq_eq_false_iff_ne, ne_eq]
      intro e; subst e; exact h2 hc)
  rw [e2]
  exact l.reverse_reverse

lemma mem_stripUnderscores {l : List Char} {c : Char}
    (h : c ∈ stripUnderscores l) : c ∈ l := by
  unfold stripUnderscores at h
  rw [List.mem_reverse] at h
  have h2 := (List.dropWhile_sublist (l := (l.dropWhile (fun c => c == '_')).reverse)
    (p := fun c => c == '_')).subset h
  rw [List.mem_reverse] at h2
  exact (List.dropWhile_sublist (l := l) (p := fun c => c == '_')).subset h2

lemma collapseUnderscores_head? : ∀ l : List Char,
    (collapseUnderscores l).head? = l.head? := by
  intro l
  cases l with
  | nil => rfl
  | cons a rest =>
      simp only [collapseUnderscores]
      by_cases h : (a == '_' && (collapseUnderscores rest).head? == some '_') = true
      · rw [if_pos h]
        simp only [Bool.and_eq_true, beq_iff_eq] at h
        rw [h.2, List.head?_cons, h.1]
      · rw [if_neg h]
        rfl

lemma getLast?_cons_ne {α : Type} (a : α) {l : List α} (h : l ≠ []) :
    (a :: l).getLast? = l.getLast? := by
  cases l with
  | nil => exact absurd rfl h
  | cons b t => exact List.getLast?_cons_cons

lemma collapseUnderscores_getLast? : ∀ l : List Char,
    (collapseUnderscores l).getLast? = l.getLast? := by
  intro l
  induction l with
  | nil => rfl
  | cons a rest ih =>
      simp only [collapseUnderscores]
      by_cases h : (a == '_' && (collapseUnderscores rest).head? == some '_') = true
      · rw [if_pos h]
        simp only [Bool.and_eq_true, beq_iff_eq] at h
        have hr : rest.head? = some '_' := by rw [← collapseUnderscores_head?]; exact h.2
        have hrest : rest ≠ [] := by
          intro e; rw [e] at hr; simp at hr
        rw [ih, getLast?_cons_ne a hrest]
      · rw [if_neg h]
        by_cases hrest : rest = []
        · subst hrest
          rfl
        · have hne : collapseUnderscores rest ≠ [] := by
            intro e
            have hh : rest.head? = none := by rw [← collapseUnderscores_head?, e]; rfl
            exact hrest (List.head?_eq_none_iff.mp hh)
          rw [getLast?_cons_ne a hne, ih, getLast?_cons_ne a hrest]

lemma noDouble_tail {a : Char} {l : List Char} (h : noDouble (a :: l) = true) :
    noDouble l = true := by
  cases l with
  | nil => rfl
  | cons b t =>
      simp only [noDouble, Bool.and_eq_true] at h
      exact h.2

lemma noDouble_collapseUnderscores : ∀ l : List Char,
    noDouble (collapseUnderscores l) = true := by
  intro l
  induction l with
  | nil => rfl
  | cons a rest ih =>
      simp only [collapseUnderscores]
      by_cases h : (a == '_' && (collapseUnderscores rest).head? == some '_') = true
      · rw [if_pos h]; exact ih
      · rw [if_neg h]
        cases hr : collapseUnderscores rest with
        | nil => rfl
        | cons b t =>
            have hb : (collapseUnderscores rest).head? = some b := by rw [hr]; rfl
            simp only [noDouble, Bool.and_eq_true]
            constructor
            · rw [Bool.not_eq_true', Bool.and_eq_false_iff]
              rcases Bool.and_eq_false_iff.mp (Bool.eq_false_iff.mpr h) with ha | hbu
              · exact Or.inl ha
              · right
                rw [hb] at hbu
                simpa using hbu
            · rw [← hr]; exact ih

lemma collapseUnderscores_eq_self : ∀ l : List Char, noDouble l = true →
    collapseUnderscores l = l := by
  intro l
  induction l with
  | nil => intro _; rfl
  | cons a rest ih =>
      intro h
      cases rest with
      | nil => simp [collapseUnderscores]
      | cons b t =>
          have hstep : collapseUnderscores (a :: b :: t) =
              if a == '_' && (collapseUnderscores (b :: t)).head? == some '_' then
                collapseUnderscores (b :: t)
              else a :: collapseUnderscores (b :: t) := rfl
          rw [hstep, ih (noDouble_tail h), if_neg]
          simp only [List.head?_cons, Bool.and_eq_true, beq_iff_eq, Option.some.injEq, not_and]
          intro ha hb
          rw [ha, hb] at h
          simp [noDouble] at h

lemma mem_collapseUnderscores : ∀ (l : List Char) (c : Char),
    c ∈ collapseUnderscores l → c ∈ l := by
  intro l
  induction l with
  | nil => intro c h; simp [collapseUnderscores] at h
  | cons a rest ih =>
      intro c h
      have hstep : collapseUnderscores (a :: rest) =
          if a == '_' && (collapseUnderscores rest).head? == some '_' then
            collapseUnderscores rest
          else a :: collapseUnderscores rest := rfl
      rw [hstep] at h
      by_cases hc : (a == '_' && (collapseUnderscores rest).head? == some '_') = true
      · rw [if_pos hc] at h
        exact List.mem_cons_of_mem a (ih c h)
      · rw [if_neg hc] at h
        rcases List.mem_cons.mp h with h1 | h1
        · exact List.mem_cons.mpr (Or.inl h1)
        · exact List.mem_cons_of_mem a (ih c h1)

lemma sanitizeCore_all (l : List Char) : (sanitizeCore l).all isAllowedChar = true := by
  apply List.all_eq_true.2
  intro c hc
  have h1 := mem_collapseUnderscores _ _ hc
  have h2 := mem_stripUnderscores h1
  exact List.all_eq_true.1 (replaceBad_all _) c h2

lemma sanitizeCore_head? {l : List Char} {c : Char}
    (h : (sanitizeCore l).head? = some c) : c ≠ '_' := by
  unfold sanitizeCore at h
  rw [collapseUnderscores_head?] at h
  exact stripUnderscores_head? h

lemma sanitizeCore_getLast? {l : List Char} {c : Char}
    (h : (sanitizeCore l).getLast? = some c) : c ≠ '_' := by
  unfold sanitizeCore at h
  rw [collapseUnderscores_getLast?] at h
  exact getLast?_stripUnderscores h

lemma sanitizeCore_noDouble (l : List Char) : noDouble (sanitizeCore l) = true :=
  noDouble_collapseUnderscores _

lemma sanitizeCore_idem (l : List Char) :
    sanitizeCore (sanitizeCore l) = sanitizeCore l := by
  have hall := sanitizeCore_all l
  have h1 := map_jsLowerChar_of_all hall
  have h2 := replaceBad_of_all hall
  have h3 : stripUnderscores (sanitizeCore l) = sanitizeCore l := by
    apply stripUnderscores_eq_self
    · intro hh; exact sanitizeCore_head? hh rfl
    · intro hh; exact sanitizeCore_getLast? hh rfl
  have h4 := collapseUnderscores_eq_self _ (sanitizeCore_noDouble l)
  show collapseUnderscores (stripUnderscores (replaceBad ((sanitizeCore l).map jsLowerChar)))
      = sanitizeCore l
  rw [h1, h2, h3, h4]

/-- Embeds `inferType(value)` of schemaGenerator.js.  `none` models a `null`
or `undefined` argument; `some v` a string argument (every call site passes a
string or `undefined`).  The string length check counts characters, as the
field values of this model are plain character lists. -/
def inferTypeStr : Option String → String
  | none => "string"
  | some v =>
      let s := jsTrim v
      if s == "true" || s == "false" then "boolean"
      else if jsNumericStringValid s && parseFloatDefined s then
        if s.data.contains '.' then "decimal" else "integer"
      else if isDateChars s.data then "date"
      else if isDateTimeChars s.data then "timestamp"
      else if s.data.length > 255 then "text"
      else "string"

/-- Model of a JavaScript value produced by `JSON.parse`.  A number is carried
by its string form (the form `String(value)` would produce), which is all
`inferType` ever looks at. -/
inductive JsValue where
  | str (s : String)
  | num (s : String)
  | bool (b : Bool)
  | jsNull
  | arr (xs : List JsValue)
  | obj (kvs : List (String × JsValue))

/-- Shape descriptor stored per field by the content analyzers: either a plain
`{type, required}` record, a `{type: relation, relatedTable, childStructure}`
record, or a `{type: json, required: false}` record. -/
inductive StructVal where
  | typed (ty : String) (required : Bool)
  | relation (relatedTable : String) (child : Option (List (String × StructVal)))
  | jsonField

/-- Models a JavaScript object-property assignment `o[k] = v`: an existing key
keeps its position and gets the new value, a fresh key is appended. -/
def objInsert {α : Type} (k : String) (v : α) (l : List (String × α)) : List (String × α) :=
  if l.any (fun p => p.1 == k) then l.map (fun p => if p.1 == k then (k, v) else p)
  else l ++ [(k, v)]

mutual

/-- Embeds `inferStructureFromObject(obj, depth)` of schemaGenerator.js:
depth above 3 or an empty array yields `null`; a nonempty array recurses into
its first element; an object maps each entry through `inferEntries`; any other
value yields an empty structure. -/
def inferStructureFromObject (v : JsValue) (depth : Nat) :
    Option (List (String × StructVal)) :=
  if depth > 3 then none
  else
    match v with
    | .arr [] => none
    | .arr (x :: _) => inferStructureFromObject x (depth + 1)
    | .obj kvs => some (inferEntries kvs depth [])
    | _ => some []

/-- Embeds the `for (const [key, value] of Object.entries(obj))` loop of
`inferStructureFromObject`: array values become `relation` entries with a
child structure inferred from the first element, object values become `json`
entries, and primitive values go through `inferType` on their string form. -/
def inferEntries (kvs : List (String × JsValue)) (depth : Nat)
    (acc : List (String × StructVal)) : List (String × StructVal) :=
  match kvs with
  | [] => acc
  | (k, .arr []) :: rest =>
      inferEntries rest depth
        (objInsert (sanitizeFieldName k) (.relation (sanitizeFieldName k) none) acc)
  | (k, .arr (w :: _)) :: rest =>
      inferEntries rest depth
        (objInsert (sanitizeFieldName k)
          (.relation (sanitizeFieldName k) (inferStructureFromObject w (depth + 1))) acc)
  | (k, .obj _) :: rest =>
      inferEntries rest depth (objInsert (sanitizeFieldName k) .jsonField acc)
  | (k, .str s) :: rest =>
      inferEntries rest depth
        (objInsert (sanitizeFieldName k) (.typed (inferTypeStr (some s)) false) acc)
  | (k, .num s) :: rest =>
      inferEntries rest depth
        (objInsert (sanitizeFieldName k) (.typed (inferTypeStr (some s)) false) acc)
  | (k, .bool b) :: rest =>
      inferEntries rest depth
        (objInsert (sanitizeFieldName k)
          (.typed (inferTypeStr (some (if b then "true" else "false"))) false) acc)
  | (k, .jsNull) :: rest =>
      inferEntries rest depth (objInsert (sanitizeFieldName k) (.typed "string" false) acc)

end

/-- Embeds `analyzeJSON(content)` of schemaGenerator.js.  The platform
`JSON.parse` is passed in as `parse`; a parse failure (which the source
catches and turns into a `null` structure) is modelled by `none`. -/
def analyzeJSON (parse : String → Option JsValue) (content : String) :
    Option (List (String × StructVal)) :=
  match parse content with
  | none => none
  | some data => inferStructureFromObject data 0

/-- Updates the `.type` property of the entry stored under `k`, as the second
pass of `analyzeCSV` does (`fields[name].type = ...`); the entries present
there always come from the first pass and are `typed` records. -/
def objSetType (l : List (String × StructVal)) (k : String) (ty : String) :
    List (String × StructVal) :=
  l.map fun p =>
    if p.1 == k then
      match p.2 with
      | .typed _ r => (p.1, .typed ty r)
      | other => (p.1, other)
    else p

/-- Embeds `analyzeCSV(content)` of schemaGenerator.js: split on newlines,
keep lines that are nonempty after trimming, read the first line as the
comma-split header row, give every sanitized header `{type: string,
required: false}`, then refine each type from the comma-split second line
(when present) through `inferType`. -/
def analyzeCSV (content : String) : Option (List (String × StructVal)) :=
  let lines := (content.splitOn "\n").filter (fun line => !(jsTrim line == ""))
  match lines with
  | [] => none
  | firstLine :: restLines =>
      let headers := (firstLine.splitOn ",").map jsTrim
      let fields := headers.foldl
        (fun fs h => objInsert (sanitizeFieldName h) (.typed "string" false) fs) []
      match restLines with
      | [] => some fields
      | secondLine :: _ =>
          let sampleRow := secondLine.splitOn ","
          some (headers.enum.foldl
            (fun fs ih =>
              objSetType fs (sanitizeFieldName ih.2)
                (inferTypeStr ((sampleRow.get? ih.1).map jsTrim)))
            fields)

/-- Character is in the regex class `\w = [A-Za-z0-9_]`. -/
def isWordChar (c : Char) : Bool :=
  c.isAlpha || c.isDigit || c == '_'

/-- Attempts to match the regular expression `<(\w+)>([^<]*)<\/\1>` at the
start of `l`.  On success returns the tag name, the enclosed value and the
total number of characters consumed.  The regex is deterministic here: `\w+`
and `[^<]*` are maximal munches whose follow-sets exclude their own character
classes, so no backtracking can produce a different match. -/
def xmlTryMatch (l : List Char) : Option (List Char × List Char × Nat) :=
  match l with
  | '<' :: r1 =>
      let name := r1.takeWhile isWordChar
      if name.isEmpty then none
      else
        match r1.drop name.length with
        | '>' :: r2 =>
            let value := r2.takeWhile (fun c => !(c == '<'))
            (match r2.drop value.length with
             | '<' :: '/' :: r3 =>
                 if name.isPrefixOf r3 then
                   match r3.drop name.length with
                   | '>' :: _ => some (name, value, 2 * name.length + value.length + 5)
                   | _ => none
                 else none
             | _ => none)
        | _ => none
  | _ => none

/-- Embeds the `tagPattern.exec` scan loop of `analyzeXML`: repeatedly finds
the next non-overlapping match of `<(\w+)>([^<]*)<\/\1>`, resuming after each
match (the regex's `lastIndex` behaviour), advancing one character where no
match starts.  Every successful match consumes at least seven characters, so
`max n 1 = n` there and the `max` only serves termination. -/
def xmlScanAux : List Char → List (List Char × List Char)
  | [] => []
  | c :: rest =>
      match xmlTryMatch (c :: rest) with
      | some (name, value, n) => (name, value) :: xmlScanAux ((c :: rest).drop (max n 1))
      | none => xmlScanAux rest
termination_by l => l.length
decreasing_by
  · simp only [List.length_drop, List.length_cons]
    omega
  · simp only [List.length_cons]
    omega

/-- Embeds `analyzeXML(content)` of schemaGenerator.js: for each matched tag
pair, the first occurrence of a sanitized tag name wins and stores
`{type: inferType(value), required: false}`. -/
def analyzeXML (content : String) : Option (List (String × StructVal)) :=
  some ((xmlScanAux content.data).foldl
    (fun fields nv =>
      let fieldName := sanitizeFieldName ⟨nv.1⟩
      if fields.any (fun p => p.1 == fieldName) then fields
      else fields ++ [(fieldName, .typed (inferTypeStr (some ⟨nv.2⟩)) false)])
    [])

/-- The unanchored regex test `/\d{4}-\d{2}-\d{2}/.test(content)`: some
position of the list starts a `YYYY-MM-DD` shaped substring. -/
def containsDatePattern : List Char → Bool
  | [] => false
  | l@(_ :: rest) =>
      (match l with
       | a :: b :: c :: d :: '-' :: e :: f :: '-' :: g :: h :: _ =>
           a.isDigit && b.isDigit && c.isDigit && d.isDigit &&
           e.isDigit && f.isDigit && g.isDigit && h.isDigit
       | _ => false)
      || containsDatePattern rest

/-- Embeds `analyzeText(content)` of schemaGenerator.js: a fixed baseline of
`title`/`content`/`excerpt` fields, plus `author_email` when the content
contains both `@` and `.`, plus `published_date` when it contains a
`YYYY-MM-DD` shaped substring. -/
def analyzeText (content : String) : Option (List (String × StructVal)) :=
  let fields : List (String × StructVal) :=
    [("title", .typed "string" true), ("content", .typed "text" true),
     ("excerpt", .typed "text" false)]
  let fields :=
    if content.contains '@' && content.contains '.' then
      objInsert "author_email" (.typed "string" false) fields
    else fields
  let fields :=
    if containsDatePattern content.data then
      objInsert "published_date" (.typed "date" false) fields
    else fields
  some fields

/-- One uploaded item as the core sees it, together with the outcome the
filesystem will produce for it: `readResult = some content` models a
successful `fs.readFile`, `none` models a read error (the thrown exception
that `analyzeFiles` catches). -/
structure FileInfo where
  path : String
  originalName : String
  extension : String
  readResult : Option String

/-- Per-file analysis record of `analyzeContent`: `fields` is initialized to
`{}` and never assigned anywhere in the source, the inferred map goes into
`structureVal` (the JS property `structure`). -/
structure Analysis where
  fields : List (String × StructVal)
  type' : String
  hasMetadata : Bool
  structureVal : Option (List (String × StructVal))

/-- Embeds `analyzeContent(content, fileInfo)` of schemaGenerator.js:
dispatch on the file extension, falling back to the free-text analyzer with
type tag `document`. -/
def analyzeContent (parse : String → Option JsValue) (content : String)
    (fileInfo : FileInfo) : Analysis :=
  match fileInfo.extension with
  | ".json" =>
      { fields := [], type' := "structured", hasMetadata := false,
        structureVal := analyzeJSON parse content }
  | ".csv" =>
      { fields := [], type' := "tabular", hasMetadata := false,
        structureVal := analyzeCSV content }
  | ".xml" =>
      { fields := [], type' := "structured", hasMetadata := false,
        structureVal := analyzeXML content }
  | ".md" =>
      { fields := [], type' := "content", hasMetadata := false,
        structureVal := analyzeText content }
  | ".txt" =>
      { fields := [], type' := "content", hasMetadata := false,
        structureVal := analyzeText content }
  | _ =>
      { fields := [], type' := "document", hasMetadata := false,
        structureVal := analyzeText content }

/-- Aggregate built by `analyzeFiles`: `content` collects each successfully
read file with its analysis, `structureTop` models the `structure: {}` slot
(never assigned), `commonFields` the `Set` of keys of `analysis.fields`
(insertion-ordered, deduplicated), `mediaFiles` the never-assigned array. -/
structure AnalyzedData where
  content : List (FileInfo × Analysis)
  structureTop : List (String × StructVal)
  commonFields : List String
  mediaFiles : List String

/-- Insertion into the JS `Set` of common fields. -/
def addToSet (l : List String) (k : String) : List String :=
  if l.contains k then l else l ++ [k]

/-- One iteration of the `for (const fileInfo of fileInfos)` loop of
`analyzeFiles`: a read error is caught and the file is skipped; otherwise the
file is pushed onto `content` with its analysis and the keys of
`analysis.fields` are added to `commonFields`. -/
def analyzeStep (parse : String → Option JsValue) (ad : AnalyzedData)
    (f : FileInfo) : AnalyzedData :=
  match f.readResult with
  | none => ad
  | some content =>
      let analysis := analyzeContent parse content f
      { ad with
        content := ad.content ++ [(f, analysis)],
        commonFields := (analysis.fields.map Prod.fst).foldl addToSet ad.commonFields }

/-- Embeds `analyzeFiles(fileInfos)` of schemaGenerator.js. -/
def analyzeFiles (parse : String → Option JsValue) (files : List FileInfo) :
    AnalyzedData :=
  files.foldl (analyzeStep parse)
    { content := [], structureTop := [], commonFields := [], mediaFiles := [] }

/-- One column/property (the objects pushed into `fields` arrays in
schemaGenerator.js).  `type'` renders the JS property `type` (a Lean keyword);
absent JS properties are the defaults `false`/`none`.  A JS `default` value is
carried by the string its template interpolation `'${field.default}'` would
produce (`0` → `"0"`, `false` → `"false"`). -/
structure FieldSpec where
  name : String
  type' : String
  required : Bool := false
  primaryKey : Bool := false
  autoIncrement : Bool := false
  unique : Bool := false
  default : Option String := none
  length : Option Nat := none
  precision : Option Nat := none
  scale : Option Nat := none
deriving DecidableEq

/-- One table descriptor: prefixed name plus ordered field sequence. -/
structure Table where
  name : String
  fields : List FieldSpec
deriving DecidableEq

/-- The flat configuration record consumed by the generator. -/
structure Config where
  websiteType : String
  databaseType : String
  tablePrefix : String
  includeMetadata : Bool
  includeImages : Bool
  projectName : String
deriving DecidableEq

/-- Mutable state of a `SchemaGenerator` instance: `this.config`,
`this.tables`, `this.relationships`, `this.metadata`. -/
structure GenState where
  config : Config
  tables : List Table
  relationships : List String
  metadata : List (String × String)

/-- Embeds the `SchemaGenerator` constructor: stores the configuration and
initializes `tables`/`relationships` to empty arrays and `metadata` to an
empty object. -/
def mkSchemaGenerator (config : Config) : GenState :=
  { config := config, tables := [], relationships := [], metadata := [] }

/-- Embeds `tableName(name)`: prepend the configured table prefix. -/
def tableName (cfg : Config) (name : String) : String :=
  cfg.tablePrefix ++ name

/-- The six tables pushed by `generateBlogStructure`. -/
def blogTables (cfg : Config) : List Table :=
  [{ name := tableName cfg "posts", fields := [
      { name := "id", type' := "integer", required := true, primaryKey := true, autoIncrement := true },
      { name := "title", type' := "string", required := true, length := some 255 },
      { name := "slug", type' := "string", required := true, length := some 255, unique := true },
      { name := "content", type' := "text", required := true },
      { name := "excerpt", type' := "text", required := false },
      { name := "author_id", type' := "integer", required := false },
      { name := "category_id", type' := "integer", required := false },
      { name := "status", type' := "string", required := true, default := some "draft", length := some 20 },
      { name := "published_at", type' := "timestamp", required := false },
      { name := "created_at", type' := "timestamp", required := true },
      { name := "updated_at", type' := "timestamp", required := true }] },
   { name := tableName cfg "categories", fields := [
      { name := "id", type' := "integer", required := true, primaryKey := true, autoIncrement := true },
      { name := "name", type' := "string", required := true, length := some 100 },
      { name := "slug", type' := "string", required := true, length := some 100, unique := true },
      { name := "description", type' := "text", required := false },
      { name := "parent_id", type' := "integer", required := false },
      { name := "created_at", type' := "timestamp", required := true }] },
   { name := tableName cfg "tags", fields := [
      { name := "id", type' := "integer", required := true, primaryKey := true, autoIncrement := true },
      { name := "name", type' := "string", required := true, length := some 50, unique := true },
      { name := "slug", type' := "string", required := true, length := some 50, unique := true },
      { name := "created_at", type' := "timestamp", required := true }] },
   { name := tableName cfg "post_tags", fields := [
      { name := "post_id", type' := "integer", required := true },
      { name := "tag_id", type' := "integer", required := true },
      { name := "created_at", type' := "timestamp", required := true }] },
   { name := tableName cfg "authors", fields := [
      { name := "id", type' := "integer", required := true, primaryKey := true, autoIncrement := true },
      { name := "name", type' := "string", required := true, length := some 100 },
      { name := "email", type' := "string", required := true, length := some 255, unique := true },
      { name := "bio", type' := "text", required := false },
      { name := "avatar_url", type' := "string", required := false, length := some 500 },
      { name := "created_at", type' := "timestamp", required := true }] },
   { name := tableName cfg "comments", fields := [
      { name := "id", type' := "integer", required := true, primaryKey := true, autoIncrement := true },
      { name := "post_id", type' := "integer", required := true },
      { name := "author_name", type' := "string", required := true, length := some 100 },
      { name := "author_email", type' := "string", required := true, length := some 255 },
      { name := "content", type' := "text", required := true },
      { name := "status", type' := "string", required := true, default := some "pending", length := some 20 },
      { name := "parent_id", type' := "integer", required := false },
      { name := "created_at", type' := "timestamp", required := true }] }]

/-- The three tables pushed by `generatePortfolioStructure`. -/
def portfolioTables (cfg : Config) : List Table :=
  [{ name := tableName cfg "projects", fields := [
      { name := "id", type' := "integer", required := true, primaryKey := true, autoIncrement := true },
      { name := "title", type' := "string", required := true, length := some 255 },
      { name := "slug", type' := "string", required := true, length := some 255, unique := true },
      { name := "description", type' := "text", required := true },
      { name := "client", type' := "string", required := false, length := some 100 },
      { name := "project_url", type' := "string", required := false, length := some 500 },
      { name := "github_url", type' := "string", required := false, length := some 500 },
      { name := "featured", type' := "boolean", required := true, default := some "false" },
      { name := "completed_at", type' := "date", required := false },
      { name := "created_at", type' := "timestamp", required := true },
      { name := "updated_at", type' := "timestamp", required := true }] },
   { name := tableName cfg "skills", fields := [
      { name := "id", type' := "integer", required := true, primaryKey := true, autoIncrement := true },
      { name := "name", type' := "string", required := true, length := some 50, unique := true },
      { name := "category", type' := "string", required := false, length := some 50 },
      { name := "proficiency", type' := "integer", required := false },
      { name := "created_at", type' := "timestamp", required := true }] },
   { name := tableName cfg "project_skills", fields := [
      { name := "project_id", type' := "integer", required := true },
      { name := "skill_id", type' := "integer", required := true }] }]

/-- The three tables pushed by `generateEcommerceStructure`. -/
def ecommerceTables (cfg : Config) : List Table :=
  [{ name := tableName cfg "products", fields := [
      { name := "id", type' := "integer", required := true, primaryKey := true, autoIncrement := true },
      { name := "name", type' := "string", required := true, length := some 255 },
      { name := "slug", type' := "string", required := true, length := some 255, unique := true },
      { name := "description", type' := "text", required := true },
      { name := "price", type' := "decimal", required := true, precision := some 10, scale := some 2 },
      { name := "compare_price", type' := "decimal", required := false, precision := some 10, scale := some 2 },
      { name := "sku", type' := "string", required := false, length := some 100, unique := true },
      { name := "stock_quantity", type' := "integer", required := true, default := some "0" },
      { name := "category_id", type' := "integer", required := false },
      { name := "status", type' := "string", required := true, default := some "active", length := some 20 },
      { name := "created_at", type' := "timestamp", required := true },
      { name := "updated_at", type' := "timestamp", required := true }] },
   { name := tableName cfg "categories", fields := [
      { name := "id", type' := "integer", required := true, primaryKey := true, autoIncrement := true },
      { name := "name", type' := "string", required := true, length := some 100 },
      { name := "slug", type' := "string", required := true, length := some 100, unique := true },
      { name := "parent_id", type' := "integer", required := false },
      { name := "created_at", type' := "timestamp", required := true }] },
   { name := tableName cfg "orders", fields := [
      { name := "id", type' := "integer", required := true, primaryKey := true, autoIncrement := true },
      { name := "order_number", type' := "string", required := true, length := some 50, unique := true },
      { name := "customer_id", type' := "integer", required := false },
      { name := "total", type' := "decimal", required := true, precision := some 10, scale := some 2 },
      { name := "status", type' := "string", required := true, default := some "pending", length := some 20 },
      { name := "created_at", type' := "timestamp", required := true },
      { name := "updated_at", type' := "timestamp", required := true }] }]

/-- The two tables pushed by `generateDocumentationStructure`. -/
def documentationTables (cfg : Config) : List Table :=
  [{ name := tableName cfg "pages", fields := [
      { name := "id", type' := "integer", required := true, primaryKey := true, autoIncrement := true },
      { name := "title", type' := "string", required := true, length := some 255 },
      { name := "slug", type' := "string", required := true, length := some 255, unique := true },
      { name := "content", type' := "text", required := true },
      { name := "parent_id", type' := "integer", required := false },
      { name := "order", type' := "integer", required := true, default := some "0" },
      { name := "version", type' := "string", required := false, length := some 20 },
      { name := "created_at", type' := "timestamp", required := true },
      { name := "updated_at", type' := "timestamp", required := true }] },
   { name := tableName cfg "sections", fields := [
      { name := "id", type' := "integer", required := true, primaryKey := true, autoIncrement := true },
      { name := "name", type' := "string", required := true, length := some 100 },
      { name := "slug", type' := "string", required := true, length := some 100, unique := true },
      { name := "order", type' := "integer", required := true, default := some "0" },
      { name := "created_at", type' := "timestamp", required := true }] }]

/-- The three tables pushed by `generateCorporateStructure`. -/
def corporateTables (cfg : Config) : List Table :=
  [{ name := tableName cfg "pages", fields := [
      { name := "id", type' := "integer", required := true, primaryKey := true, autoIncrement := true },
      { name := "title", type' := "string", required := true, length := some 255 },
      { name := "slug", type' := "string", required := true, length := some 255, unique := true },
      { name := "content", type' := "text", required := true },
      { name := "meta_title", type' := "string", required := false, length := some 255 },
      { name := "meta_description", type' := "text", required := false },
      { name := "template", type' := "string", required := false, length := some 50 },
      { name := "status", type' := "string", required := true, default := some "draft", length := some 20 },
      { name := "created_at", type' := "timestamp", required := true },
      { name := "updated_at", type' := "timestamp", required := true }] },
   { name := tableName cfg "team_members", fields := [
      { name := "id", type' := "integer", required := true, primaryKey := true, autoIncrement := true },
      { name := "name", type' := "string", required := true, length := some 100 },
      { name := "position", type' := "string", required := true, length := some 100 },
      { name := "bio", type' := "text", required := false },
      { name := "email", type' := "string", required := false, length := some 255 },
      { name := "photo_url", type' := "string", required := false, length := some 500 },
      { name := "order", type' := "integer", required := true, default := some "0" },
      { name := "created_at", type' := "timestamp", required := true }] },
   { name := tableName cfg "services", fields := [
      { name := "id", type' := "integer", required := true, primaryKey := true, autoIncrement := true },
      { name := "title", type' := "string", required := true, length := some 255 },
      { name := "slug", type' := "string", required := true, length := some 255, unique := true },
      { name := "description", type' := "text", required := true },
      { name := "icon", type' := "string", required := false, length := some 100 },
      { name := "featured", type' := "boolean", required := true, default := some "false" },
      { name := "created_at", type' := "timestamp", required := true }] }]

/-- The single generic table pushed by `generateCustomStructure`. -/
def customTables (cfg : Config) : List Table :=
  [{ name := tableName cfg "content", fields := [
      { name := "id", type' := "integer", required := true, primaryKey := true, autoIncrement := true },
      { name := "title", type' := "string", required := true, length := some 255 },
      { name := "slug", type' := "string", required := true, length := some 255, unique := true },
      { name := "body", type' := "text", required := true },
      { name := "type", type' := "string", required := true, length := some 50 },
      { name := "status", type' := "string", required := true, default := some "draft", length := some 20 },
      { name := "created_at", type' := "timestamp", required := true },
      { name := "updated_at", type' := "timestamp", required := true }] }]

/-- The table pushed by `addMetadataTables`. -/
def metadataTable (cfg : Config) : Table :=
  { name := tableName cfg "metadata", fields := [
      { name := "id", type' := "integer", required := true, primaryKey := true, autoIncrement := true },
      { name := "entity_type", type' := "string", required := true, length := some 50 },
      { name := "entity_id", type' := "integer", required := true },
      { name := "meta_key", type' := "string", required := true, length := some 100 },
      { name := "meta_value", type' := "text", required := false },
      { name := "created_at", type' := "timestamp", required := true }] }

/-- The table pushed by `addMediaTables`. -/
def mediaTable (cfg : Config) : Table :=
  { name := tableName cfg "media", fields := [
      { name := "id", type' := "integer", required := true, primaryKey := true, autoIncrement := true },
      { name := "filename", type' := "string", required := true, length := some 255 },
      { name := "original_name", type' := "string", required := true, length := some 255 },
      { name := "mime_type", type' := "string", required := true, length := some 100 },
      { name := "size", type' := "integer", required := true },
      { name := "url", type' := "string", required := true, length := some 500 },
      { name := "alt_text", type' := "string", required := false, length := some 255 },
      { name := "width", type' := "integer", required := false },
      { name := "height", type' := "integer", required := false },
      { name := "uploaded_at", type' := "timestamp", required := true }] }

/-- Embeds `generateBlogStructure` (six `this.tables.push` calls; the
`analyzedData` parameter is received but never read). -/
def generateBlogStructure (st : GenState) (_analyzedData : AnalyzedData) : GenState :=
  { st with tables := st.tables ++ blogTables st.config }

/-- Embeds `generatePortfolioStructure`. -/
def generatePortfolioStructure (st : GenState) (_analyzedData : AnalyzedData) : GenState :=
  { st with tables := st.tables ++ portfolioTables st.config }

/-- Embeds `generateEcommerceStructure`. -/
def generateEcommerceStructure (st : GenState) (_analyzedData : AnalyzedData) : GenState :=
  { st with tables := st.tables ++ ecommerceTables st.config }

/-- Embeds `generateDocumentationStructure`. -/
def generateDocumentationStructure (st : GenState) (_analyzedData : AnalyzedData) : GenState :=
  { st with tables := st.tables ++ documentationTables st.config }

/-- Embeds `generateCorporateStructure`. -/
def generateCorporateStructure (st : GenState) (_analyzedData : AnalyzedData) : GenState :=
  { st with tables := st.tables ++ corporateTables st.config }

/-- Embeds `generateCustomStructure`. -/
def generateCustomStructure (st : GenState) (_analyzedData : AnalyzedData) : GenState :=
  { st with tables := st.tables ++ customTables st.config }

/-- Embeds `addMetadataTables`. -/
def addMetadataTables (st : GenState) : GenState :=
  { st with tables := st.tables ++ [metadataTable st.config] }

/-- Embeds `addMediaTables`. -/
def addMediaTables (st : GenState) : GenState :=
  { st with tables := st.tables ++ [mediaTable st.config] }

/-- The `switch (websiteType)` dispatch at the head of `generateStructure`. -/
def baseStructure (st : GenState) (ad : AnalyzedData) : GenState :=
  match st.config.websiteType with
  | "blog" => generateBlogStructure st ad
  | "portfolio" => generatePortfolioStructure st ad
  | "ecommerce" => generateEcommerceStructure st ad
  | "documentation" => generateDocumentationStructure st ad
  | "corporate" => generateCorporateStructure st ad
  | _ => generateCustomStructure st ad

/-- Embeds `generateStructure(analyzedData)`: domain dispatch, then the two
flag-gated augmenters. -/
def generateStructure (st : GenState) (ad : AnalyzedData) : GenState :=
  let st1 := baseStructure st ad
  let st2 := if st1.config.includeMetadata then addMetadataTables st1 else st1
  if st2.config.includeImages then addMediaTables st2 else st2

/-- Models the JS falsy-defaulting read `field.x || d` for a numeric option:
an absent property or the (falsy) value `0` yields the default. -/
def jsOrNat (o : Option Nat) (d : Nat) : Nat :=
  match o with
  | some n => if n == 0 then d else n
  | none => d

/-- Embeds `mapTypeToMySQL(field)`. -/
def mapTypeToMySQL (f : FieldSpec) : String :=
  match f.type' with
  | "integer" => "INT"
  | "string" => "VARCHAR(" ++ toString (jsOrNat f.length 255) ++ ")"
  | "text" => "TEXT"
  | "boolean" => "BOOLEAN"
  | "date" => "DATE"
  | "timestamp" => "TIMESTAMP DEFAULT CURRENT_TIMESTAMP"
  | "decimal" => "DECIMAL(" ++ toString (jsOrNat f.precision 10) ++ ","
      ++ toString (jsOrNat f.scale 2) ++ ")"
  | _ => "VARCHAR(255)"

/-- Embeds `mapTypeToPostgreSQL(field)`. -/
def mapTypeToPostgreSQL (f : FieldSpec) : String :=
  match f.type' with
  | "integer" => "INTEGER"
  | "string" => "VARCHAR(" ++ toString (jsOrNat f.length 255) ++ ")"
  | "text" => "TEXT"
  | "boolean" => "BOOLEAN"
  | "date" => "DATE"
  | "timestamp" => "TIMESTAMP DEFAULT CURRENT_TIMESTAMP"
  | "decimal" => "DECIMAL(" ++ toString (jsOrNat f.precision 10) ++ ","
      ++ toString (jsOrNat f.scale 2) ++ ")"
  | _ => "VARCHAR(255)"

/-- Embeds `mapTypeToSQLite(field)`. -/
def mapTypeToSQLite (f : FieldSpec) : String :=
  match f.type' with
  | "integer" => "INTEGER"
  | "string" => "TEXT"
  | "text" => "TEXT"
  | "boolean" => "INTEGER"
  | "date" => "TEXT"
  | "timestamp" => "TEXT"
  | "decimal" => "REAL"
  | _ => "TEXT"

/-- Embeds `mapTypeToMongo(type)`. -/
def mapTypeToMongo (ty : String) : String :=
  match ty with
  | "integer" => "int"
  | "string" => "string"
  | "text" => "string"
  | "boolean" => "bool"
  | "date" => "date"
  | "timestamp" => "date"
  | "decimal" => "double"
  | _ => "string"

/-- One field definition line of the MySQL renderer. -/
def mysqlFieldDef (f : FieldSpec) : String :=
  "  `" ++ f.name ++ "` " ++ mapTypeToMySQL f
    ++ (if f.required then " NOT NULL" else "")
    ++ (if f.autoIncrement then " AUTO_INCREMENT" else "")
    ++ (match f.default with
        | some d => " DEFAULT '" ++ d ++ "'"
        | none => "")
    ++ (if f.unique then " UNIQUE" else "")

/-- One `CREATE TABLE` block of the MySQL renderer, with the trailing
composite `PRIMARY KEY (...)` line when any field is flagged `primaryKey`. -/
def mysqlTableBlock (t : Table) : String :=
  let fieldDefinitions := t.fields.map mysqlFieldDef
  let primaryKeys := t.fields.filter (fun f => f.primaryKey)
  let fieldDefinitions :=
    if primaryKeys.length > 0 then
      fieldDefinitions ++
        ["  PRIMARY KEY (`" ++ String.intercalate "`, `" (primaryKeys.map (fun f => f.name)) ++ "`)"]
    else fieldDefinitions
  "CREATE TABLE IF NOT EXISTS `" ++ t.name ++ "` (\n"
    ++ String.intercalate ",\n" fieldDefinitions
    ++ "\n) ENGINE=InnoDB DEFAULT CHARSET=utf8mb4 COLLATE=utf8mb4_unicode_ci;\n\n"

/-- Embeds `generateMySQLSchema()`; `now` stands for
`new Date().toISOString()`. -/
def generateMySQLSchema (cfg : Config) (now : String) (tables : List Table) : String :=
  "-- Generated MySQL Schema for " ++ cfg.projectName ++ "\n"
    ++ "-- Generated at: " ++ now ++ "\n\n"
    ++ String.join (tables.map mysqlTableBlock)

/-- One field definition line of the PostgreSQL renderer: a field flagged
both `primaryKey` and `autoIncrement` is replaced wholesale by
`"name" SERIAL PRIMARY KEY`; every other field gets its
NOT NULL / DEFAULT / UNIQUE clauses. -/
def pgFieldDef (f : FieldSpec) : String :=
  if f.primaryKey && f.autoIncrement then
    "  \"" ++ f.name ++ "\" SERIAL PRIMARY KEY"
  else
    "  \"" ++ f.name ++ "\" " ++ mapTypeToPostgreSQL f
      ++ (if f.required then " NOT NULL" else "")
      ++ (match f.default with
          | some d => " DEFAULT '" ++ d ++ "'"
          | none => "")
      ++ (if f.unique then " UNIQUE" else "")

/-- One `CREATE TABLE` block of the PostgreSQL renderer. -/
def pgTableBlock (t : Table) : String :=
  "CREATE TABLE IF NOT EXISTS \"" ++ t.name ++ "\" (\n"
    ++ String.intercalate ",\n" (t.fields.map pgFieldDef)
    ++ "\n);\n\n"

/-- Embeds `generatePostgreSQLSchema()`. -/
def generatePostgreSQLSchema (cfg : Config) (now : String) (tables : List Table) : String :=
  "-- Generated PostgreSQL Schema for " ++ cfg.projectName ++ "\n"
    ++ "-- Generated at: " ++ now ++ "\n\n"
    ++ String.join (tables.map pgTableBlock)

/-- One field definition line of the SQLite renderer (inline
PRIMARY KEY / AUTOINCREMENT modifiers). -/
def sqliteFieldDef (f : FieldSpec) : String :=
  "  \"" ++ f.name ++ "\" " ++ mapTypeToSQLite f
    ++ (if f.primaryKey then " PRIMARY KEY" else "")
    ++ (if f.autoIncrement then " AUTOINCREMENT" else "")
    ++ (if f.required then " NOT NULL" else "")
    ++ (match f.default with
        | some d => " DEFAULT '" ++ d ++ "'"
        | none => "")
    ++ (if f.unique then " UNIQUE" else "")

/-- One `CREATE TABLE` block of the SQLite renderer. -/
def sqliteTableBlock (t : Table) : String :=
  "CREATE TABLE IF NOT EXISTS \"" ++ t.name ++ "\" (\n"
    ++ String.intercalate ",\n" (t.fields.map sqliteFieldDef)
    ++ "\n);\n\n"

/-- Embeds `generateSQLiteSchema()`. -/
def generateSQLiteSchema (cfg : Config) (now : String) (tables : List Table) : String :=
  "-- Generated SQLite Schema for " ++ cfg.projectName ++ "\n"
    ++ "-- Generated at: " ++ now ++ "\n\n"
    ++ String.join (tables.map sqliteTableBlock)

/-- One property of the MongoDB `$jsonSchema` property map. -/
structure MongoProperty where
  bsonType : String
  description : String
deriving DecidableEq

/-- The `$jsonSchema` validator object emitted per collection: `bsonType` is
always `object`; `required` lists the names of required, non-auto-increment
fields; `properties` maps the remaining field names. -/
structure MongoValidator where
  required : List String
  properties : List (String × MongoProperty)
deriving DecidableEq

/-- One collection entry of the MongoDB schema object. -/
structure MongoCollection where
  name : String
  validator : MongoValidator
deriving DecidableEq

/-- The MongoDB schema object built by `generateMongoDBSchema` (before the
platform `JSON.stringify` turns it into text). -/
structure MongoSchema where
  database : String
  collections : List MongoCollection
deriving DecidableEq

/-- Embeds `generateMongoProperties(fields)`: auto-increment fields are
skipped (the document store uses `_id`); every other field is assigned into
the property map in iteration order. -/
def generateMongoProperties (fields : List FieldSpec) : List (String × MongoProperty) :=
  fields.foldl
    (fun properties f =>
      if f.autoIncrement then properties
      else objInsert f.name
        { bsonType := mapTypeToMongo f.type', description := f.name ++ " field" }
        properties)
    []

/-- The validator object built for one table inside `generateMongoDBSchema`. -/
def mongoValidatorFor (fields : List FieldSpec) : MongoValidator :=
  { required := (fields.filter (fun f => f.required && !f.autoIncrement)).map (fun f => f.name),
    properties := generateMongoProperties fields }

/-- Models the replacement `/\s+/g → '_'` on the project name: every maximal
whitespace run becomes a single underscore. -/
def replaceWsRuns : List Char → List Char
  | [] => []
  | c :: rest =>
      if jsIsWhitespace c then '_' :: replaceWsRuns (rest.dropWhile jsIsWhitespace)
      else c :: replaceWsRuns rest
termination_by l => l.length
decreasing_by
  · have := (List.dropWhile_sublist (l := rest) (p := jsIsWhitespace)).length_le
    simp only [List.length_cons]
    omega
  · simp only [List.length_cons]
    omega

/-- The database name `this.config.projectName.toLowerCase().replace(/\s+/g, '_')`. -/
def mongoDatabaseName (projectName : String) : String :=
  ⟨replaceWsRuns (projectName.data.map jsLowerChar)⟩

/-- Embeds the schema object of `generateMongoDBSchema()`; the source then
returns `JSON.stringify(schema, null, 2)`, modelled by the `stringify`
parameter of `generateSQL`. -/
def generateMongoDBSchema (cfg : Config) (tables : List Table) : MongoSchema :=
  { database := mongoDatabaseName cfg.projectName,
    collections := tables.map (fun table =>
      { name := table.name, validator := mongoValidatorFor table.fields }) }

/-- Embeds `generateSQL()`: dialect dispatch with MySQL as the default. -/
def generateSQL (now : String) (stringify : MongoSchema → String) (st : GenState) : String :=
  match st.config.databaseType with
  | "mysql" => generateMySQLSchema st.config now st.tables
  | "postgresql" => generatePostgreSQLSchema st.config now st.tables
  | "sqlite" => generateSQLiteSchema st.config now st.tables
  | "mongodb" => stringify (generateMongoDBSchema st.config st.tables)
  | _ => generateMySQLSchema st.config now st.tables

/-- The object returned by `generateFromFiles`. -/
structure SchemaResult where
  sql : String
  tables : List Table
  totalFields : Nat
  metadata : List (String × String)
  relationships : List String

/-- Embeds `generateFromFiles(fileInfos)`: analyze the files, build the table
structure (mutating `this.tables`), render the SQL, and assemble the result.
Returns the updated instance state together with the result, so repeated
invocations on one instance can be expressed. -/
def generateFromFiles (now : String) (parse : String → Option JsValue)
    (stringify : MongoSchema → String) (st : GenState) (files : List FileInfo) :
    GenState × SchemaResult :=
  let analyzedData := analyzeFiles parse files
  let st' := generateStructure st analyzedData
  let sql := generateSQL now stringify st'
  (st',
   { sql := sql,
     tables := st'.tables,
     totalFields := st'.tables.foldl (fun sum table => sum + table.fields.length) 0,
     metadata := st'.metadata,
     relationships := st'.relationships })

/-- The table list the `switch` of `generateStructure` appends for a given
configuration (a pure-data restatement used by the theorems below). -/
def baseCatalog (cfg : Config) : List Table :=
  match cfg.websiteType with
  | "blog" => blogTables cfg
  | "portfolio" => portfolioTables cfg
  | "ecommerce" => ecommerceTables cfg
  | "documentation" => documentationTables cfg
  | "corporate" => corporateTables cfg
  | _ => customTables cfg

/-- The full table list a generation run appends: domain catalog plus the two
flag-gated augmenter tables. -/
def structureTables (cfg : Config) : List Table :=
  baseCatalog cfg
    ++ (if cfg.includeMetadata then [metadataTable cfg] else [])
    ++ (if cfg.includeImages then [mediaTable cfg] else [])

lemma baseStructure_eq (st : GenState) (ad : AnalyzedData) :
    baseStructure st ad = { st with tables := st.tables ++ baseCatalog st.config } := by
  unfold baseStructure baseCatalog
  split <;> rfl

lemma generateStructure_eq (st : GenState) (ad : AnalyzedData) :
    generateStructure st ad = { st with tables := st.tables ++ structureTables st.config } := by
  unfold generateStructure
  rw [baseStructure_eq]
  by_cases hm : st.config.includeMetadata <;> by_cases hi : st.config.includeImages <;>
    simp [addMetadataTables, addMediaTables, structureTables, hm, hi, List.append_assoc]

lemma foldl_add_fields (l : List Table) (a : Nat) :
    l.foldl (fun sum table => sum + table.fields.length) a
      = a + l.foldl (fun sum table => sum + table.fields.length) 0 := by
  induction l generalizing a with
  | nil => simp
  | cons t rest ih =>
      simp only [List.foldl_cons]
      rw [ih (a + t.fields.length), ih (0 + t.fields.length)]
      omega

lemma analyzeContent_fields (parse : String → Option JsValue) (content : String)
    (f : FileInfo) : (analyzeContent parse content f).fields = [] := by
  unfold analyzeContent
  split <;> rfl

lemma analyzeStep_commonFields (parse : String → Option JsValue) (ad : AnalyzedData)
    (f : FileInfo) : (analyzeStep parse ad f).commonFields = ad.commonFields := by
  unfold analyzeStep
  rcases hr : f.readResult with _ | content
  · rfl
  · simp [analyzeContent_fields]

lemma foldl_analyzeStep_commonFields (parse : String → Option JsValue) :
    ∀ (files : List FileInfo) (ad : AnalyzedData),
      (files.foldl (analyzeStep parse) ad).commonFields = ad.commonFields := by
  intro files
  induction files with
  | nil => intro ad; rfl
  | cons f rest ih =>
      intro ad
      rw [List.foldl_cons, ih, analyzeStep_commonFields]

lemma foldl_analyzeStep_content (parse : String → Option JsValue) :
    ∀ (files : List FileInfo) (ad : AnalyzedData),
      (files.foldl (analyzeStep parse) ad).content
        = ad.content ++ files.filterMap
            (fun f => (f.readResult).map (fun c => (f, analyzeContent parse c f))) := by
  intro files
  induction files with
  | nil => intro ad; simp
  | cons f rest ih =>
      intro ad
      rw [List.foldl_cons, ih]
      unfold analyzeStep
      rcases hr : f.readResult with _ | content
      · simp [List.filterMap_cons, hr]
      · simp [List.filterMap_cons, hr, List.append_assoc]

lemma objInsert_map_fst {α : Type} (k : String) (v : α) :
    ∀ l : List (String × α),
      (l.map (fun p => if p.1 == k then (k, v) else p)).map Prod.fst = l.map Prod.fst := by
  intro l
  induction l with
  | nil => rfl
  | cons p t ih =>
      simp only [List.map_cons, ih]
      by_cases h : p.1 == k
      · rw [if_pos h]
        simp [beq_iff_eq.mp h]
      · rw [if_neg h]

lemma objInsert_keys {α : Type} (k : String) (v : α) (l : List (String × α)) (n : String) :
    n ∈ (objInsert k v l).map Prod.fst ↔ n ∈ l.map Prod.fst ∨ n = k := by
  unfold objInsert
  by_cases h : l.any (fun p => p.1 == k)
  · rw [if_pos h, objInsert_map_fst]
    constructor
    · exact Or.inl
    · rintro (hm | rfl)
      · exact hm
      · rcases List.any_eq_true.mp h with ⟨p, hp, he⟩
        exact List.mem_map.mpr ⟨p, hp, beq_iff_eq.mp he⟩
  · rw [if_neg h]
    simp [List.mem_map, or_comm]

lemma mongoProperties_keys_aux :
    ∀ (fields : List FieldSpec) (acc : List (String × MongoProperty)) (n : String),
      n ∈ ((fields.foldl
          (fun properties f =>
            if f.autoIncrement then properties
            else objInsert f.name
              { bsonType := mapTypeToMongo f.type', description := f.name ++ " field" }
              properties)
          acc).map Prod.fst)
      ↔ n ∈ acc.map Prod.fst ∨ ∃ f, f ∈ fields ∧ f.name = n ∧ f.autoIncrement = false := by
  intro fields
  induction fields with
  | nil => intro acc n; simp
  | cons f rest ih =>
      intro acc n
      rw [List.foldl_cons]
      by_cases hai : f.autoIncrement
      · rw [if_pos hai, ih]
        constructor
        · rintro (h | ⟨g, hg, hgn, hga⟩)
          · exact Or.inl h
          · exact Or.inr ⟨g, List.mem_cons_of_mem f hg, hgn, hga⟩
        · rintro (h | ⟨g, hg, hgn, hga⟩)
          · exact Or.inl h
          · rcases List.mem_cons.mp hg with rfl | hg'
            · rw [hai] at hga; exact absurd hga (by simp)
            · exact Or.inr ⟨g, hg', hgn, hga⟩
      · rw [if_neg hai, ih]
        rw [objInsert_keys]
        constructor
        · rintro ((h | rfl) | ⟨g, hg, hgn, hga⟩)
          · exact Or.inl h
          · exact Or.inr ⟨f, List.mem_cons_self f rest, rfl, Bool.eq_false_iff.mpr hai⟩
          · exact Or.inr ⟨g, List.mem_cons_of_mem f hg, hgn, hga⟩
        · rintro (h | ⟨g, hg, hgn, hga⟩)
          · exact Or.inl (Or.inl h)
          · rcases List.mem_cons.mp hg with rfl | hg'
            · exact Or.inl (Or.inr hgn.symm)
            · exact Or.inr ⟨g, hg', hgn, hga⟩

lemma mongoProperties_keys (fields : List FieldSpec) (n : String) :
    n ∈ ((generateMongoProperties fields).map Prod.fst)
      ↔ ∃ f, f ∈ fields ∧ f.name = n ∧ f.autoIncrement = false := by
  unfold generateMongoProperties
  rw [mongoProperties_keys_aux]
  simp

/-- C1: two runs of `generateFromFiles` on freshly constructed generators
with the same configuration yield the same `tables` sequence whatever the
input file lists (and whatever the platform timestamp, JSON parser and
stringifier are): the generated table set depends only on the configuration,
never on the analyzed file contents. -/
theorem generateFromFiles_tables_config_only
    (cfg : Config) (now1 now2 : String) (parse1 parse2 : String → Option JsValue)
    (strf1 strf2 : MongoSchema → String) (files1 files2 : List FileInfo) :
    ((generateFromFiles now1 parse1 strf1 (mkSchemaGenerator cfg) files1).2).tables
      = ((generateFromFiles now2 parse2 strf2 (mkSchemaGenerator cfg) files2).2).tables := by
  unfold generateFromFiles
  simp only [generateStructure_eq]

/-- C2 counterexample: `inferType` compares against the lower-case literals
`'true'`/`'false'` without case folding, so the claimed case-insensitive
inputs `"TRUE"` and `"False"` are classified as `string`, not `boolean`. -/
theorem inferType_case_sensitive_cex :
    inferTypeStr (some "TRUE") = "string"
    ∧ (inferTypeStr (some "TRUE") == "boolean") = false
    ∧ inferTypeStr (some "False") = "string"
    ∧ (inferTypeStr (some "False") == "boolean") = false := by
  refine ⟨rfl, by decide, rfl, by decide⟩

/-- C2 amended: for every string whose trimmed value is exactly the
lower-case `"true"` or `"false"`, `inferType` returns `boolean`; in
particular `inferType("true") = boolean` and `inferType("false") = boolean`
(upper- or mixed-case variants fall through to `string`). -/
theorem inferType_lowercase_bool :
    (∀ s : String, jsTrim s = "true" ∨ jsTrim s = "false" →
      inferTypeStr (some s) = "boolean")
    ∧ inferTypeStr (some "true") = "boolean"
    ∧ inferTypeStr (some "false") = "boolean" := by
  refine ⟨?_, rfl, rfl⟩
  intro s hs
  unfold inferTypeStr
  rcases hs with h | h <;> simp [h]

/-- Witness for the amended C2 theorem at the concrete input `" true "`. -/
theorem inferType_lowercase_bool_witness :
    inferTypeStr (some " true ") = "boolean" :=
  inferType_lowercase_bool.1 " true " (Or.inl (by decide))

/-- C9: the numeric branch of `inferType` rejects the empty string (and hence
every all-whitespace string, which trims to empty) because
`parseFloat("") is NaN`, so such values fall through to `string`, while a
whitespace-padded integer like `" 42 "` is trimmed and classified `integer`. -/
theorem inferType_empty_string :
    (∀ s : String, jsTrim s = "" → inferTypeStr (some s) = "string")
    ∧ inferTypeStr (some "") = "string"
    ∧ inferTypeStr (some " 42 ") = "integer" := by
  refine ⟨?_, rfl, rfl⟩
  intro s h
  unfold inferTypeStr
  simp only [h]
  decide

/-- Witness for the C9 theorem at the concrete all-whitespace input. -/
theorem inferType_empty_string_witness :
    inferTypeStr (some "   ") = "string" :=
  inferType_empty_string.1 "   " (by decide)

/-- C5: every `sanitizeFieldName` output consists of `[a-z0-9_]` characters
only, has no leading underscore, no trailing underscore and no two
consecutive underscores, and sanitization is idempotent. -/
theorem sanitizeFieldName_shape_idem (s : String) :
    (sanitizeFieldName s).data.all isAllowedChar = true
    ∧ ((sanitizeFieldName s).data.head? == some '_') = false
    ∧ ((sanitizeFieldName s).data.getLast? == some '_') = false
    ∧ noDouble (sanitizeFieldName s).data = true
    ∧ sanitizeFieldName (sanitizeFieldName s) = sanitizeFieldName s := by
  refine ⟨sanitizeCore_all _, ?_, ?_, sanitizeCore_noDouble _, ?_⟩
  · rw [beq_eq_false_iff_ne]
    intro h
    exact sanitizeCore_head? h rfl
  · rw [beq_eq_false_iff_ne]
    intro h
    exact sanitizeCore_getLast? h rfl
  · show (⟨sanitizeCore (sanitizeCore s.data)⟩ : String) = ⟨sanitizeCore s.data⟩
    rw [sanitizeCore_idem]

/-- C3 amended: for every configuration (hence for every domain tag),
`includeMetadata` appends exactly the one metadata table and `includeImages`
exactly the one media table, both carrying the configured prefix — but each
appended table's field list starts with the auto-increment primary key `id`
in addition to the claimed field set. -/
theorem augmenters_append_tables (cfg : Config) (ad : AnalyzedData) :
    (generateStructure (mkSchemaGenerator cfg) ad).tables
      = baseCatalog cfg
        ++ (if cfg.includeMetadata then [metadataTable cfg] else [])
        ++ (if cfg.includeImages then [mediaTable cfg] else [])
    ∧ (metadataTable cfg).name = cfg.tablePrefix ++ "metadata"
    ∧ (metadataTable cfg).fields.map (fun f => f.name)
        = ["id", "entity_type", "entity_id", "meta_key", "meta_value", "created_at"]
    ∧ (mediaTable cfg).name = cfg.tablePrefix ++ "media"
    ∧ (mediaTable cfg).fields.map (fun f => f.name)
        = ["id", "filename", "original_name", "mime_type", "size", "url", "alt_text",
           "width", "height", "uploaded_at"] := by
  refine ⟨?_, rfl, rfl, rfl, rfl⟩
  rw [generateStructure_eq]
  rfl

/-- Configuration used by the concrete counterexamples below. -/
def cfgAugCex : Config :=
  { websiteType := "blog", databaseType := "mysql", tablePrefix := "wp_",
    includeMetadata := true, includeImages := true, projectName := "Example" }

/-- An analysis aggregate over zero files. -/
def emptyAnalyzedData : AnalyzedData :=
  { content := [], structureTop := [], commonFields := [], mediaFiles := [] }

/-- C3 counterexample: the appended metadata and media tables each contain an
`id` field, so their field sets are not exactly the claimed sets. -/
theorem augmenter_field_set_cex :
    (generateStructure (mkSchemaGenerator cfgAugCex) emptyAnalyzedData).tables
      = blogTables cfgAugCex ++ [metadataTable cfgAugCex, mediaTable cfgAugCex]
    ∧ ((metadataTable cfgAugCex).fields.map (fun f => f.name)
        == ["entity_type", "entity_id", "meta_key", "meta_value", "created_at"]) = false
    ∧ "id" ∈ (metadataTable cfgAugCex).fields.map (fun f => f.name)
    ∧ ((mediaTable cfgAugCex).fields.map (fun f => f.name)
        == ["filename", "original_name", "mime_type", "size", "url", "alt_text",
            "width", "height", "uploaded_at"]) = false
    ∧ "id" ∈ (mediaTable cfgAugCex).fields.map (fun f => f.name) := by
  refine ⟨?_, by decide, by decide, by decide, by decide⟩
  rw [generateStructure_eq]
  rfl

/-- A platform JSON parser outcome on input that is not valid JSON:
`JSON.parse` throws, which `analyzeJSON` catches and turns into `null`. -/
def jsonParseFailing : String → Option JsValue := fun _ => none

/-- A readable upload whose content does not parse as JSON. -/
def unparsableJsonFile : FileInfo :=
  { path := "upload/x.json", originalName := "x.json", extension := ".json",
    readResult := some "not valid json" }

/-- C4 counterexample: a readable but unparsable structured file is NOT
excluded from the aggregate — it stays in `content` with a `null` structure;
only read failures are excluded. -/
theorem unparsable_json_not_excluded_cex :
    (analyzeFiles jsonParseFailing [unparsableJsonFile]).content.length = 1
    ∧ ((analyzeFiles jsonParseFailing [unparsableJsonFile]).content.map
        (fun p => p.2.structureVal.isNone)) = [true] :=
  ⟨rfl, rfl⟩

/-- C4 amended: exactly the unreadable files are excluded from the aggregate
(an unparsable structured file stays, with a `null` structure), the run
continues over the remaining files either way, and the caller always receives
the complete table set — an individual file failure never makes
`generateFromFiles` fail. -/
theorem analyzeFiles_error_isolation (parse : String → Option JsValue)
    (files : List FileInfo) (cfg : Config) (now : String) (strf : MongoSchema → String) :
    (analyzeFiles parse files).content
      = files.filterMap (fun f => (f.readResult).map (fun c => (f, analyzeContent parse c f)))
    ∧ ((generateFromFiles now parse strf (mkSchemaGenerator cfg) files).2).tables
      = structureTables cfg := by
  constructor
  · unfold analyzeFiles
    rw [foldl_analyzeStep_content]
    rfl
  · unfold generateFromFiles
    simp only [generateStructure_eq]
    rfl

/-- Configuration used by the C6 counterexample (an unrecognized domain tag,
resolved to the single generic content table). -/
def cfgStateCex : Config :=
  { websiteType := "custom", databaseType := "mysql", tablePrefix := "",
    includeMetadata := false, includeImages := false, projectName := "Example" }

/-- C6 counterexample: a second `generateFromFiles` invocation on the same
`SchemaGenerator` instance does carry state over — `this.tables` is never
reset, so the second result holds the table set twice and is not equal to the
first. -/
theorem generateFromFiles_stateful_cex :
    ((generateFromFiles "" jsonParseFailing (fun _ => "")
        (mkSchemaGenerator cfgStateCex) []).2).tables.length = 1
    ∧ ((generateFromFiles "" jsonParseFailing (fun _ => "")
        ((generateFromFiles "" jsonParseFailing (fun _ => "")
          (mkSchemaGenerator cfgStateCex) []).1) []).2).tables.length = 2
    ∧ (((generateFromFiles "" jsonParseFailing (fun _ => "")
        ((generateFromFiles "" jsonParseFailing (fun _ => "")
          (mkSchemaGenerator cfgStateCex) []).1) []).2).tables
      == ((generateFromFiles "" jsonParseFailing (fun _ => "")
        (mkSchemaGenerator cfgStateCex) []).2).tables) = false
    ∧ (((generateFromFiles "" jsonParseFailing (fun _ => "")
        ((generateFromFiles "" jsonParseFailing (fun _ => "")
          (mkSchemaGenerator cfgStateCex) []).1) []).2).totalFields
      == ((generateFromFiles "" jsonParseFailing (fun _ => "")
        (mkSchemaGenerator cfgStateCex) []).2).totalFields) = false := by
  refine ⟨rfl, rfl, by decide, by decide⟩

/-- C6 amended: a second invocation on the same instance returns the first
run's tables followed by a second copy of the generated set (doubling
`totalFields`); equal results are guaranteed only across freshly constructed
generators, where `generateFromFiles` is a pure function of its inputs. -/
theorem generateFromFiles_second_run_appends
    (now now' : String) (parse parse' : String → Option JsValue)
    (strf strf' : MongoSchema → String) (cfg : Config) (files files' : List FileInfo) :
    ((generateFromFiles now' parse' strf'
        ((generateFromFiles now parse strf (mkSchemaGenerator cfg) files).1) files').2).tables
      = ((generateFromFiles now parse strf (mkSchemaGenerator cfg) files).2).tables
        ++ ((generateFromFiles now parse strf (mkSchemaGenerator cfg) files).2).tables
    ∧ ((generateFromFiles now' parse' strf'
        ((generateFromFiles now parse strf (mkSchemaGenerator cfg) files).1) files').2).totalFields
      = 2 * ((generateFromFiles now parse strf (mkSchemaGenerator cfg) files).2).totalFields := by
  constructor
  · unfold generateFromFiles
    simp only [generateStructure_eq]
    rfl
  · unfold generateFromFiles
    simp only [generateStructure_eq]
    show ((structureTables cfg ++ structureTables cfg).foldl
        (fun sum table => sum + table.fields.length) 0)
      = 2 * ((structureTables cfg).foldl (fun sum table => sum + table.fields.length) 0)
    rw [List.foldl_append, foldl_add_fields]
    omega

/-- C7: for every table whose field names are unique (the TableSpec
invariant), the document-store validator's `required` list holds exactly the
names of required non-auto-increment fields, its property map holds exactly
the non-auto-increment field names, and no auto-increment field's name
appears in either. -/
theorem mongoValidator_excludes_autoIncrement (fields : List FieldSpec)
    (hnodup : (fields.map (fun f => f.name)).Nodup) :
    (∀ n : String, n ∈ (mongoValidatorFor fields).required
        ↔ ∃ f, f ∈ fields ∧ f.name = n ∧ f.required = true ∧ f.autoIncrement = false)
    ∧ (∀ n : String, n ∈ ((mongoValidatorFor fields).properties.map Prod.fst)
        ↔ ∃ f, f ∈ fields ∧ f.name = n ∧ f.autoIncrement = false)
    ∧ (∀ f, f ∈ fields → f.autoIncrement = true →
        f.name ∉ (mongoValidatorFor fields).required
        ∧ f.name ∉ ((mongoValidatorFor fields).properties.map Prod.fst)) := by
  have hreq : ∀ n : String, n ∈ (mongoValidatorFor fields).required
      ↔ ∃ f, f ∈ fields ∧ f.name = n ∧ f.required = true ∧ f.autoIncrement = false := by
    intro n
    unfold mongoValidatorFor
    simp only [List.mem_map, List.mem_filter, Bool.and_eq_true, Bool.not_eq_true']
    constructor
    · rintro ⟨f, ⟨hf, hr, ha⟩, rfl⟩
      exact ⟨f, hf, rfl, hr, ha⟩
    · rintro ⟨f, hf, rfl, hr, ha⟩
      exact ⟨f, ⟨hf, hr, ha⟩, rfl⟩
  have hprops : ∀ n : String, n ∈ ((mongoValidatorFor fields).properties.map Prod.fst)
      ↔ ∃ f, f ∈ fields ∧ f.name = n ∧ f.autoIncrement = false := by
    intro n
    unfold mongoValidatorFor
    exact mongoProperties_keys fields n
  refine ⟨hreq, hprops, ?_⟩
  intro f hf hai
  constructor
  · intro hmem
    rcases (hreq f.name).mp hmem with ⟨g, hg, hgn, _, hga⟩
    rw [List.inj_on_of_nodup_map hnodup hg hf hgn, hai] at hga
    exact absurd hga (by simp)
  · intro hmem
    rcases (hprops f.name).mp hmem with ⟨g, hg, hgn, hga⟩
    rw [List.inj_on_of_nodup_map hnodup hg hf hgn, hai] at hga
    exact absurd hga (by simp)

/-- Witness for the C7 theorem at the metadata table's concrete field list. -/
theorem mongoValidator_excludes_autoIncrement_witness :
    "id" ∉ (mongoValidatorFor (metadataTable cfgAugCex).fields).required
    ∧ "id" ∉ ((mongoValidatorFor (metadataTable cfgAugCex).fields).properties.map Prod.fst) := by
  have h := mongoValidator_excludes_autoIncrement (metadataTable cfgAugCex).fields (by decide)
  exact h.2.2
    { name := "id", type' := "integer", required := true, primaryKey := true,
      autoIncrement := true }
    (by decide) rfl

/-- C8: the PostgreSQL renderer collapses a field flagged both `primaryKey`
and `autoIncrement` into the single clause `"name" SERIAL PRIMARY KEY`, with
no separate NOT NULL / DEFAULT / UNIQUE clauses, while every other field
keeps its type and its NOT NULL / DEFAULT / UNIQUE clauses per its flags. -/
theorem postgres_serial_collapse (f : FieldSpec) :
    (f.primaryKey = true → f.autoIncrement = true →
      pgFieldDef f = "  \"" ++ f.name ++ "\" SERIAL PRIMARY KEY")
    ∧ ((f.primaryKey && f.autoIncrement) = false →
      pgFieldDef f = "  \"" ++ f.name ++ "\" " ++ mapTypeToPostgreSQL f
        ++ (if f.required then " NOT NULL" else "")
        ++ (match f.default with
            | some d => " DEFAULT '" ++ d ++ "'"
            | none => "")
        ++ (if f.unique then " UNIQUE" else "")) := by
  constructor
  · intro h1 h2
    unfold pgFieldDef
    rw [if_pos (by rw [h1, h2]; rfl)]
  · intro h
    unfold pgFieldDef
    rw [if_neg (by rw [h]; simp)]

/-- Witness for the C8 theorem at two concrete fields of the catalog. -/
theorem postgres_serial_collapse_witness :
    pgFieldDef
        { name := "id", type' := "integer", required := true, primaryKey := true,
          autoIncrement := true }
      = "  \"id\" SERIAL PRIMARY KEY"
    ∧ pgFieldDef { name := "title", type' := "string", required := true, length := some 255 }
      = "  \"title\" VARCHAR(255) NOT NULL" := by
  constructor
  · exact (postgres_serial_collapse _).1 rfl rfl
  · rw [(postgres_serial_collapse
      { name := "title", type' := "string", required := true, length := some 255 }).2 rfl]
    rfl

/-- C10: the returned `metadata` is always the empty object and the
aggregated `commonFields` set is always empty: every analyzer writes its map
into `analysis.structure` while the aggregation reads `analysis.fields`,
which stays `{}`. -/
theorem metadata_and_commonFields_empty (cfg : Config) (now : String)
    (parse : String → Option JsValue) (strf : MongoSchema → String) (files : List FileInfo) :
    ((generateFromFiles now parse strf (mkSchemaGenerator cfg) files).2).metadata = []
    ∧ (analyzeFiles parse files).commonFields = [] := by
  constructor
  · unfold generateFromFiles
    simp only [generateStructure_eq]
    rfl
  · unfold analyzeFiles
    rw [foldl_analyzeStep_commonFields]
